import Mathlib

/-!
Verification of the PostHog storybook visual-regression harness.

Sources embedded here:
- src/.storybook/test-runner.ts : the visual snapshot verifier (themes,
  capture modes, waits, snapshot identifiers, comparison configuration);
- src/unnamed/part_000 : the storybook main configuration (webpackFinal).

Modelling conventions: JavaScript strings are `List Char`; pixel
coordinates from getBoundingClientRect are `Int` (the claims only use
ordering and addition, which transfer unchanged from floats); fallible
browser steps return `Option`/`Except`; the sequential effects of one
verification call are recorded as an explicit event trace.
-/

/-- Snapshot themes, mirroring `type SnapshotTheme = 'legacy' | 'light' | 'dark'`
in test-runner.ts. -/
inductive SnapshotTheme
  | legacy
  | light
  | dark
deriving DecidableEq, Repr

/-- Supported browsers, mirroring
`type SupportedBrowserName = 'chromium' | 'webkit'` in test-runner.ts. -/
inductive SupportedBrowserName
  | chromium
  | webkit
deriving DecidableEq, Repr

/-- The string value of a theme, as interpolated by the code's
template literal backquote-dash-dash-theme. -/
def themeName : SnapshotTheme → List Char
  | .legacy => ['l', 'e', 'g', 'a', 'c', 'y']
  | .light => ['l', 'i', 'g', 'h', 't']
  | .dark => ['d', 'a', 'r', 'k']

/-- The string value of a browser name. -/
def browserName : SupportedBrowserName → List Char
  | .chromium => ['c', 'h', 'r', 'o', 'm', 'i', 'u', 'm']
  | .webkit => ['w', 'e', 'b', 'k', 'i', 't']

/-- The snapshot identifier built in `expectLocatorToMatchStorySnapshot`
(test-runner.ts lines 303-309): start from `context.id`, append
`--theme` unless the theme is `legacy`, then append `--browser`
unless the browser is `chromium`. -/
def customSnapshotIdentifier (storyId : List Char) (theme : SnapshotTheme)
    (browser : SupportedBrowserName) : List Char :=
  let withTheme :=
    if theme = SnapshotTheme.legacy then storyId
    else storyId ++ ['-', '-'] ++ themeName theme
  if browser = SupportedBrowserName.chromium then withTheme
  else withTheme ++ ['-', '-'] ++ browserName browser

theorem csi_legacy_chromium (i : List Char) :
    customSnapshotIdentifier i SnapshotTheme.legacy SupportedBrowserName.chromium = i := rfl

theorem csi_legacy_webkit (i : List Char) :
    customSnapshotIdentifier i SnapshotTheme.legacy SupportedBrowserName.webkit
      = i ++ ['-', '-', 'w', 'e', 'b', 'k', 'i', 't'] := by
  simp [customSnapshotIdentifier, browserName]

theorem csi_light_chromium (i : List Char) :
    customSnapshotIdentifier i SnapshotTheme.light SupportedBrowserName.chromium
      = i ++ ['-', '-', 'l', 'i', 'g', 'h', 't'] := by
  simp [customSnapshotIdentifier, themeName]

theorem csi_light_webkit (i : List Char) :
    customSnapshotIdentifier i SnapshotTheme.light SupportedBrowserName.webkit
      = i ++ ['-', '-', 'l', 'i', 'g', 'h', 't', '-', '-', 'w', 'e', 'b', 'k', 'i', 't'] := by
  simp [customSnapshotIdentifier, themeName, browserName]

theorem csi_dark_chromium (i : List Char) :
    customSnapshotIdentifier i SnapshotTheme.dark SupportedBrowserName.chromium
      = i ++ ['-', '-', 'd', 'a', 'r', 'k'] := by
  simp [customSnapshotIdentifier, themeName]

theorem csi_dark_webkit (i : List Char) :
    customSnapshotIdentifier i SnapshotTheme.dark SupportedBrowserName.webkit
      = i ++ ['-', '-', 'd', 'a', 'r', 'k', '-', '-', 'w', 'e', 'b', 'k', 'i', 't'] := by
  simp [customSnapshotIdentifier, themeName, browserName]

/-- True when the character list contains no two adjacent dashes (so the
suffix separator `--` cannot occur inside it). -/
def noDoubleDash : List Char → Bool
  | [] => true
  | [_] => true
  | a :: b :: rest => !(a == '-' && b == '-') && noDoubleDash (b :: rest)

theorem noDoubleDash_tail (a : Char) (l : List Char)
    (h : noDoubleDash (a :: l) = true) : noDoubleDash l = true := by
  cases l with
  | nil => rfl
  | cons b rest =>
    simp only [noDoubleDash, Bool.and_eq_true] at h
    exact h.2

theorem noDoubleDash_append (xs ys : List Char)
    (h : noDoubleDash (xs ++ ys) = true) : noDoubleDash ys = true := by
  induction xs with
  | nil => simpa using h
  | cons a rest ih => exact ih (noDoubleDash_tail a (rest ++ ys) (by simpa using h))

theorem take_of_append_eq (s t a : List Char) (h : s = a ++ t) :
    a = s.take (s.length - t.length) := by
  subst h
  have hl : (a ++ t).length - t.length = a.length := by
    simp only [List.length_append]
    omega
  rw [hl, List.take_left]

theorem drop_of_append_eq (s t a : List Char) (h : s = a ++ t) :
    s.drop (s.length - t.length) = t := by
  subst h
  have hl : (a ++ t).length - t.length = a.length := by
    simp only [List.length_append]
    omega
  rw [hl, List.drop_left]

/-- Claim C2 (amended): the snapshot identifier map is injective over all
triples (story identifier, theme, browser) whose story identifier does not
contain two adjacent dashes; such an identifier determines the triple. -/
theorem customSnapshotIdentifier_injective
    (id1 id2 : List Char) (t1 t2 : SnapshotTheme) (b1 b2 : SupportedBrowserName)
    (h1 : noDoubleDash id1 = true) (h2 : noDoubleDash id2 = true)
    (h : customSnapshotIdentifier id1 t1 b1 = customSnapshotIdentifier id2 t2 b2) :
    id1 = id2 ∧ t1 = t2 ∧ b1 = b2 := by
  cases t1 <;> cases t2 <;> cases b1 <;> cases b2 <;>
    simp only [csi_legacy_chromium, csi_legacy_webkit, csi_light_chromium,
      csi_light_webkit, csi_dark_chromium, csi_dark_webkit] at h <;>
    first
      | exact ⟨h, rfl, rfl⟩
      | (rw [h] at h1
         exact absurd (noDoubleDash_append _ _ h1) (by decide))
      | (rw [← h] at h2
         exact absurd (noDoubleDash_append _ _ h2) (by decide))
      | (rw [List.append_eq_append_iff] at h
         rcases h with ⟨a, ha, hs⟩ | ⟨a, ha, hs⟩ <;>
           first
             | exact absurd (drop_of_append_eq _ _ _ hs) (by decide)
             | (have hM := take_of_append_eq _ _ _ hs
                first
                  | (have hA : a = [] := by simp only [hM]; decide
                     subst hA
                     simp only [List.append_nil] at ha
                     exact ⟨by rw [ha], rfl, rfl⟩)
                  | (rw [ha] at h1
                     have h' := noDoubleDash_append _ _ h1
                     rw [hM] at h'
                     exact absurd h' (by decide))
                  | (rw [ha] at h2
                     have h' := noDoubleDash_append _ _ h2
                     rw [hM] at h'
                     exact absurd h' (by decide))))

/-- Witness for the amended C2 theorem at a concrete triple. -/
theorem customSnapshotIdentifier_injective_witness :
    (['a', 'b'] : List Char) = ['a', 'b'] ∧
      SnapshotTheme.light = SnapshotTheme.light ∧
      SupportedBrowserName.webkit = SupportedBrowserName.webkit :=
  customSnapshotIdentifier_injective ['a', 'b'] ['a', 'b']
    SnapshotTheme.light SnapshotTheme.light
    SupportedBrowserName.webkit SupportedBrowserName.webkit
    (by decide) (by decide) rfl

/-- Claim C2 counterexample: two distinct (story identifier, theme, browser)
triples whose snapshot identifiers coincide, so the map is not injective
over all triples: story id `a--light` with the legacy theme collides with
story id `a` with the light theme (both on the primary browser). -/
theorem customSnapshotIdentifier_not_injective :
    customSnapshotIdentifier ['a', '-', '-', 'l', 'i', 'g', 'h', 't']
        SnapshotTheme.legacy SupportedBrowserName.chromium
      = customSnapshotIdentifier ['a'] SnapshotTheme.light SupportedBrowserName.chromium
    ∧ ¬((['a', '-', '-', 'l', 'i', 'g', 'h', 't'] : List Char) = ['a']
        ∧ SnapshotTheme.legacy = SnapshotTheme.light
        ∧ SupportedBrowserName.chromium = SupportedBrowserName.chromium) := by
  decide

/-- A bounding client rectangle as returned by getBoundingClientRect, in
viewport coordinates (pixel values modelled as integers). -/
structure Rect where
  left : Int
  top : Int
  right : Int
  bottom : Int
deriving DecidableEq, Repr

/-- The state of the `#storybook-root` element during the expansion pass in
`expectStoryToMatchComponentSnapshot` (test-runner.ts lines 256-271).
The element sits in normal flow, so assigning `style.width` or
`style.height` leaves its viewport `left`/`top` fixed and moves its
`right`/`bottom` edge to `left + width` / `top + height`. -/
structure RootState where
  left : Int
  top : Int
  width : Int
  height : Int
deriving DecidableEq, Repr

/-- The bounding client rectangle the root element currently reports. -/
def RootState.rect (r : RootState) : Rect :=
  { left := r.left, top := r.top, right := r.left + r.width, bottom := r.top + r.height }

/-- One iteration of the `.Popover` loop (test-runner.ts lines 256-271):
the root's bounding rectangle is read once into
`currentRootBoundingClientRect`, then the four conditional style
assignments run in source order (right, bottom, top, left), each comparing
against and reading from that one snapshot. -/
def processPopover (root : RootState) (popover : Rect) : RootState :=
  let cur := root.rect
  let r1 := if popover.right > cur.right then { root with width := popover.right } else root
  let r2 := if popover.bottom > cur.bottom then { r1 with height := popover.bottom } else r1
  let r3 := if popover.top < cur.top then { r2 with height := -popover.top + cur.bottom } else r2
  if popover.left < cur.left then { r3 with width := -popover.left + cur.right } else r3

/-- The whole expansion pass: `document.querySelectorAll('.Popover').forEach`. -/
def expandRoot (root : RootState) (popovers : List Rect) : RootState :=
  popovers.foldl processPopover root

/-- The effective capture region after the expansion pass, in the claim's
terms: the root element's adjusted box, its origin shifted left/up to the
leftmost/topmost overlay coordinate for overlays positioned left of or
above the root (assigning width/height never moves the element, so the
shift is exactly the part of the claim that reinterprets the adjusted box
as anchored at the shifted origin). -/
def effRegion (root : RootState) (popovers : List Rect) : Rect :=
  let fin := expandRoot root popovers
  let ex := popovers.foldl (fun a p => min a p.left) root.left
  let ey := popovers.foldl (fun a p => min a p.top) root.top
  { left := ex, top := ey, right := ex + fin.width, bottom := ey + fin.height }

/-- Claim C1 counterexample: an overlay that extends beyond the root both
above and below. The bottom expansion (`height := popover.bottom`) is
overwritten by the top branch (`height := -popover.top + cur.bottom`), so
after the pass the effective capture region does not contain the overlay
in the bottom direction, even though the overlay exceeded the root there.
Root: natural box (0,10)-(100,100); overlay: (5,0)-(50,200). -/
theorem effRegion_misses_overlay_bottom :
    ((Rect.mk 5 0 50 200).bottom > ((RootState.mk 0 10 100 90).rect).bottom) ∧
    ((effRegion (RootState.mk 0 10 100 90) [Rect.mk 5 0 50 200]).bottom
      < (Rect.mk 5 0 50 200).bottom) := by
  decide

/-- Claim C1 (amended): for a pass over a single overlay, if the root's
viewport origin is nonnegative and the overlay does not extend beyond the
root on both opposite sides of the same axis (the sequential style
assignments overwrite one another in that case), then in every direction
in which the overlay's box exceeds the root's box, the effective capture
region fully contains the overlay's box in that direction. -/
theorem effRegion_contains_overlay
    (root : RootState) (p : Rect)
    (hx : 0 ≤ root.left) (hy : 0 ≤ root.top)
    (hlr : ¬(p.left < root.rect.left ∧ p.right > root.rect.right))
    (htb : ¬(p.top < root.rect.top ∧ p.bottom > root.rect.bottom)) :
    (p.right > root.rect.right → p.right ≤ (effRegion root [p]).right) ∧
    (p.bottom > root.rect.bottom → p.bottom ≤ (effRegion root [p]).bottom) ∧
    (p.top < root.rect.top → (effRegion root [p]).top ≤ p.top) ∧
    (p.left < root.rect.left → (effRegion root [p]).left ≤ p.left) := by
  simp only [effRegion, expandRoot, RootState.rect, processPopover,
    List.foldl_cons, List.foldl_nil] at *
  split_ifs <;> simp_all

/-- Witness for the amended C1 theorem: root with natural box
(2,3)-(12,13) and an overlay (4,5)-(30,8) exceeding it on the right only. -/
theorem effRegion_contains_overlay_witness :
    (0:Int) ≤ 2 ∧ (0:Int) ≤ 3 ∧
    ((Rect.mk 4 5 30 8).right > ((RootState.mk 2 3 10 10).rect).right →
      (Rect.mk 4 5 30 8).right ≤ (effRegion (RootState.mk 2 3 10 10) [Rect.mk 4 5 30 8]).right) :=
  ⟨by decide, by decide,
    (effRegion_contains_overlay (RootState.mk 2 3 10 10) (Rect.mk 4 5 30 8)
      (by decide) (by decide) (by decide) (by decide)).1⟩

/-- A DOM element, restricted to what the test runner reads or writes:
id, tag name, class list, the style properties it assigns, and its
bounding client rectangle. -/
structure DomElement where
  elemId : Option (List Char)
  tagName : List Char
  classes : List (List Char)
  styleDisplay : Option (List Char)
  styleAttrRaw : Option (List Char)
  rect : Rect
deriving DecidableEq, Repr

/-- The page DOM: the body state the runner mutates, and the other elements
in document order. -/
structure PageDom where
  bodyClasses : List (List Char)
  bodyThemeAttr : Option (List Char)
  bodyBackground : Option (List Char)
  elements : List DomElement
deriving DecidableEq, Repr

/-- A simple CSS selector: a leading dot selects by class, a leading hash
by id, and a bare name is a type selector matching the tag name. -/
inductive SimpleSelector
  | tagSel (name : List Char)
  | classSel (name : List Char)
  | idSel (name : List Char)
deriving DecidableEq, Repr

/-- Parse a simple selector string per CSS: `.x` is a class selector,
`#x` an id selector, anything else a type (tag) selector. -/
def parseSimpleSelector : List Char → SimpleSelector
  | '.' :: rest => SimpleSelector.classSel rest
  | '#' :: rest => SimpleSelector.idSel rest
  | s => SimpleSelector.tagSel s

/-- Does the element match the simple selector? -/
def matchesSelector (sel : SimpleSelector) (e : DomElement) : Bool :=
  match sel with
  | .tagSel t => e.tagName == t
  | .classSel c => e.classes.contains c
  | .idSel i => e.elemId == some i

/-- Mutate the first element satisfying the predicate, leaving the rest
unchanged; a no-op when no element matches (the code's optional chaining
after document.querySelector). -/
def updateFirstWhere : List DomElement → (DomElement → Bool) → (DomElement → DomElement) →
    List DomElement
  | [], _, _ => []
  | e :: rest, p, f => if p e then f e :: rest else e :: updateFirstWhere rest p f

/-- document.getElementById: the first element carrying the id. -/
def getElementById (dom : PageDom) (i : List Char) : Option DomElement :=
  dom.elements.find? (fun e => e.elemId == some i)

def rootElementId : List Char := "storybook-root".toList

def defaultTargetSelector : List Char := "#storybook-root".toList

def popoverClass : List Char := "Popover".toList

def navSelectorString : List Char := "Navigation3000".toList

def overflowVisibleStyle : List Char := "overflow: visible;".toList

def inlineBlockValue : List Char := "inline-block".toList

def transparentValue : List Char := "transparent".toList

def themedBackgroundValue : List Char := "var(--bg-3000)".toList

def mainSelector : List Char := "main".toList

def markerClass : List Char := "storybook-test-runner".toList

def posthog3000Class : List Char := "posthog-3000".toList

/-- The failure modes of one verification call. `rootElementNotFound` is the
explicitly thrown `new Error('Could not find root element')`. -/
inductive VerifyError
  | timeout (whichWait : List Char)
  | rootElementNotFound
  | snapshotMismatch (identifier : List Char)
deriving DecidableEq, Repr

/-- The page.evaluate of `expectStoryToMatchSceneSnapshot` (test-runner.ts
lines 198-201): `document.querySelector('Navigation3000')?.setAttribute('style',
'overflow: visible;')`. The selector string has no leading dot, so per CSS it
is a type selector for a (nonexistent) Navigation3000 tag, not the
`.Navigation3000` class that the adjacent comment names. -/
def sceneNavigationEvaluate (dom : PageDom) : PageDom :=
  { dom with
    elements := updateFirstWhere dom.elements
      (matchesSelector (parseSimpleSelector navSelectorString))
      (fun e => { e with styleAttrRaw := some overflowVisibleStyle }) }

/-- The rectangles of document.querySelectorAll('.Popover'), in document
order. -/
def popoverRects (dom : PageDom) : List Rect :=
  (dom.elements.filter (fun e => e.classes.contains popoverClass)).map (fun e => e.rect)

/-- The root element's state when the expansion fold starts: its bounding
box after the shrink-wrap display change. -/
def rootStartState (rootEl : DomElement) : RootState :=
  { left := rootEl.rect.left, top := rootEl.rect.top,
    width := rootEl.rect.right - rootEl.rect.left,
    height := rootEl.rect.bottom - rootEl.rect.top }

/-- The styling the component evaluate applies to the root element:
`display: inline-block` plus the width/height the expansion fold ended at
(recorded through the element's live bounding box). -/
def applyRootStyling (fin : RootState) (e : DomElement) : DomElement :=
  { e with
    styleDisplay := some inlineBlockValue,
    rect := { left := fin.left, top := fin.top,
              right := fin.left + fin.width, bottom := fin.top + fin.height } }

/-- The page.evaluate of `expectStoryToMatchComponentSnapshot` (test-runner.ts
lines 238-274): look up `#storybook-root` by id (throwing when absent), give
it `display: inline-block` (shrink-wrap), run the `.Popover` expansion fold
over all elements carrying the Popover class, and set the body background
(transparent for the legacy theme, the themed variable otherwise).
`DomElement.rect` stands for the live bounding box, so the root's recorded
rectangle after the pass is the fold's final state. -/
def componentEvaluate (theme : SnapshotTheme) (dom : PageDom) :
    Except VerifyError PageDom :=
  match getElementById dom rootElementId with
  | none => Except.error VerifyError.rootElementNotFound
  | some rootEl =>
      Except.ok { dom with
        elements := updateFirstWhere dom.elements (fun e => e.elemId == some rootElementId)
          (applyRootStyling (expandRoot (rootStartState rootEl) (popoverRects dom))),
        bodyBackground :=
          some (if theme = SnapshotTheme.legacy then transparentValue else themedBackgroundValue) }

/-- The three capture modes of the region selector. -/
inductive CaptureMode
  | fullPage
  | scene
  | component
deriving DecidableEq, Repr

/-- What a screenshot is taken of: the whole page, or a locator. -/
inductive ScreenshotTarget
  | fullPage
  | locator (selector : List Char)
deriving DecidableEq, Repr

/-- The observable steps of one verification call, in execution order. -/
inductive SnapEvent
  | waitForPageReady
  | addBodyClass (name : List Char)
  | waitForLoadersDetached (timeoutMs : Nat)
  | waitForCustomSelector (selector : List Char)
  | waitFixedTimeout (ms : Nat)
  | waitForImagesComplete
  | setBodyThemeAttribute (theme : SnapshotTheme)
  | evaluateSceneNavigationFix
  | evaluateComponentStyling (theme : SnapshotTheme)
  | screenshot (target : ScreenshotTarget) (omitBackground : Bool)
  | compareSnapshot (identifier : List Char)
deriving DecidableEq, Repr

/-- The result of one per-theme check: its events, the DOM it leaves
behind, and its error, if any. -/
structure CheckOut where
  events : List SnapEvent
  dom : PageDom
  err : Option VerifyError
deriving DecidableEq, Repr

/-- One per-theme check (the `check` call in `expectStoryToMatchSnapshot`):
`expectStoryToMatchFullPageSnapshot`, `expectStoryToMatchSceneSnapshot` or
`expectStoryToMatchComponentSnapshot`, each ending in
`expectLocatorToMatchStorySnapshot`. `compareOk` abstracts the external
jest-image-snapshot comparator's verdict, keyed by snapshot identifier;
`targetSelector?` is the story's optional snapshotTargetSelector, defaulted
to `#storybook-root` by the component check's parameter default. -/
def runCheck (mode : CaptureMode) (compareOk : List Char → Bool) (dom : PageDom)
    (storyId : List Char) (browser : SupportedBrowserName) (theme : SnapshotTheme)
    (targetSelector? : Option (List Char)) : CheckOut :=
  let ident := customSnapshotIdentifier storyId theme browser
  let compareErr : Option VerifyError :=
    if compareOk ident then none else some (VerifyError.snapshotMismatch ident)
  match mode with
  | .fullPage =>
      { events := [SnapEvent.screenshot ScreenshotTarget.fullPage false,
                   SnapEvent.compareSnapshot ident],
        dom := dom, err := compareErr }
  | .scene =>
      { events := [SnapEvent.evaluateSceneNavigationFix,
                   SnapEvent.screenshot (ScreenshotTarget.locator mainSelector) false,
                   SnapEvent.compareSnapshot ident],
        dom := sceneNavigationEvaluate dom, err := compareErr }
  | .component =>
      match componentEvaluate theme dom with
      | .error e =>
          { events := [SnapEvent.evaluateComponentStyling theme], dom := dom, err := some e }
      | .ok dom' =>
          { events := [SnapEvent.evaluateComponentStyling theme,
                       SnapEvent.screenshot
                         (ScreenshotTarget.locator (targetSelector?.getD defaultTargetSelector)) true,
                       SnapEvent.compareSnapshot ident],
            dom := dom', err := compareErr }

/-- The story's layout parameter values ('padded' | 'fullscreen' | 'centered'). -/
inductive Layout
  | padded
  | fullscreen
  | centered
deriving DecidableEq, Repr

/-- The per-story testOptions parameters (test-runner.ts lines 16-39); every
field is optional in the story definition. -/
structure TestOptions where
  waitForLoadersToDisappear : Option Bool := none
  waitForSelector : Option (List Char) := none
  excludeNavigationFromSnapshot : Option Bool := none
  snapshotBrowsers : Option (List SupportedBrowserName) := none
  snapshotTargetSelector : Option (List Char) := none
deriving DecidableEq, Repr

/-- The story context parameters the verifier reads. -/
structure StoryParameters where
  layout : Option Layout := none
  testOptions : Option TestOptions := none
deriving DecidableEq, Repr

/-- waitForLoadersToDisappear after the destructuring
`const \x7b waitForLoadersToDisappear = true, ... \x7d =
storyContext.parameters?.testOptions ?? \x7b\x7d` (default true). -/
def resolvedWaitForLoaders (p : StoryParameters) : Bool :=
  ((p.testOptions.getD {}).waitForLoadersToDisappear).getD true

/-- The optional waitForSelector after the same destructuring. -/
def resolvedWaitForSelector (p : StoryParameters) : Option (List Char) :=
  (p.testOptions.getD {}).waitForSelector

/-- excludeNavigationFromSnapshot after the same destructuring (default false). -/
def resolvedExcludeNavigation (p : StoryParameters) : Bool :=
  ((p.testOptions.getD {}).excludeNavigationFromSnapshot).getD false

/-- The optional snapshotTargetSelector
(`storyContext.parameters?.testOptions?.snapshotTargetSelector`). -/
def resolvedTargetSelector (p : StoryParameters) : Option (List Char) :=
  (p.testOptions.getD {}).snapshotTargetSelector

/-- The capture-mode dispatch of expectStoryToMatchSnapshot (test-runner.ts
lines 125-133): fullscreen layout picks the scene check when navigation is
excluded and the full-page check otherwise; every other layout (any value,
or absent) picks the component check. -/
def selectCaptureMode (p : StoryParameters) : CaptureMode :=
  if p.layout = some Layout.fullscreen then
    if resolvedExcludeNavigation p then CaptureMode.scene else CaptureMode.fullPage
  else CaptureMode.component

/-- The observable behaviour of one rendered page toward each wait, its DOM,
and the external comparator's verdicts. `loaderDetachTime` is the earliest
millisecond at which every loader-indicator element is detached (`none` when
that never happens). -/
structure PageModel where
  pageReadyOk : Bool
  loaderDetachTime : Option Nat
  customSelectorOk : Bool
  imagesCompleteOk : Bool
  dom : PageDom
  compareOk : List Char → Bool

/-- Does `page.waitForSelector(LOADER_SELECTORS.join(','), { state: 'detached',
timeout: ms })` succeed: are all loader elements detached within `ms`
milliseconds? -/
def loadersDetachedWithin (page : PageModel) (ms : Nat) : Bool :=
  match page.loaderDetachTime with
  | some t => t ≤ ms
  | none => false

def loaderWaitTimeoutMs : Nat := 1000

def settleDelayMs : Nat := 400

def pageReadyWaitName : List Char := "waitForPageReady".toList

def loadersWaitName : List Char := "loaders detached".toList

def selectorWaitName : List Char := "waitForSelector".toList

def imagesWaitName : List Char := "images complete".toList

/-- The readiness-gate portion of expectStoryToMatchSnapshot (test-runner.ts
lines 135-153), in source order: waitForPageReady; add the
animation-stopping marker class `storybook-test-runner`; the loader wait
(timeout 1000 ms, only when waitForLoadersToDisappear); the optional
custom-selector wait; the fixed 400 ms settle delay; the image-load wait.
Returns the events executed and the timeout that aborted them, if any. -/
def verificationPrefix (page : PageModel) (p : StoryParameters) :
    List SnapEvent × Option VerifyError :=
  let ev0 := [SnapEvent.waitForPageReady]
  if page.pageReadyOk = false then (ev0, some (VerifyError.timeout pageReadyWaitName)) else
  let ev1 := ev0 ++ [SnapEvent.addBodyClass markerClass]
  let ev2 :=
    if resolvedWaitForLoaders p then ev1 ++ [SnapEvent.waitForLoadersDetached loaderWaitTimeoutMs]
    else ev1
  if resolvedWaitForLoaders p && !loadersDetachedWithin page loaderWaitTimeoutMs then
    (ev2, some (VerifyError.timeout loadersWaitName)) else
  let ev3 :=
    match resolvedWaitForSelector p with
    | some sel => ev2 ++ [SnapEvent.waitForCustomSelector sel]
    | none => ev2
  if (resolvedWaitForSelector p).isSome && !page.customSelectorOk then
    (ev3, some (VerifyError.timeout selectorWaitName)) else
  let ev4 := ev3 ++ [SnapEvent.waitFixedTimeout settleDelayMs, SnapEvent.waitForImagesComplete]
  if page.imagesCompleteOk = false then (ev4, some (VerifyError.timeout imagesWaitName)) else
  (ev4, none)

/-- expectStoryToMatchSnapshot (test-runner.ts lines 106-169) as a
trace-building function: the readiness gates, then the light pass (add the
posthog-3000 body class, set the body theme attribute to light, run the
check) and, when it succeeded, the dark pass (set the attribute to dark,
run the check on the DOM the light pass left behind). -/
def runVerification (page : PageModel) (p : StoryParameters)
    (storyId : List Char) (browser : SupportedBrowserName) :
    List SnapEvent × Option VerifyError :=
  let pre := verificationPrefix page p
  match pre.2 with
  | some e => (pre.1, some e)
  | none =>
      let mode := selectCaptureMode p
      let ev5 := pre.1 ++ [SnapEvent.addBodyClass posthog3000Class,
                           SnapEvent.setBodyThemeAttribute SnapshotTheme.light]
      let lightOut := runCheck mode page.compareOk page.dom storyId browser SnapshotTheme.light
        (resolvedTargetSelector p)
      match lightOut.err with
      | some e => (ev5 ++ lightOut.events, some e)
      | none =>
          let ev6 := ev5 ++ lightOut.events ++ [SnapEvent.setBodyThemeAttribute SnapshotTheme.dark]
          let darkOut := runCheck mode page.compareOk lightOut.dom storyId browser SnapshotTheme.dark
            (resolvedTargetSelector p)
          (ev6 ++ darkOut.events, darkOut.err)

/-- The comparison method values jest-image-snapshot accepts. -/
inductive ComparisonMethod
  | ssim
  | pixelmatch
deriving DecidableEq, Repr

/-- The failureThresholdType values jest-image-snapshot accepts. -/
inductive FailureThresholdType
  | percent
  | pixel
deriving DecidableEq, Repr

/-- comparisonMethod: 'ssim' (test-runner.ts line 315). -/
def comparisonMethod : ComparisonMethod := ComparisonMethod.ssim

/-- failureThreshold: 0.01, i.e. 1% (test-runner.ts line 317). -/
def failureThreshold : ℚ := 1 / 100

/-- failureThresholdType: 'percent' (test-runner.ts line 318). -/
def failureThresholdType : FailureThresholdType := FailureThresholdType.percent

/-- Modelled from the spec: the pass/fail decision of the external
jest-image-snapshot comparator is not part of this repository (only the
configuration passed to it is, test-runner.ts lines 310-319). The spec
stipulates that a comparison fails exactly when the dissimilarity score
reaches the 1% threshold, the boundary counting as exceeded
("dissimilarity measured at exactly 1.0% -> comparison fails"). -/
def comparisonFails (dissimilarity : ℚ) : Bool :=
  decide (failureThreshold ≤ dissimilarity)

/-- A webpack module rule: `test?` is its optional `test` property
(string form of the pattern, `none` when the rule has no such property),
`label` the rest of the rule's identity. -/
structure WebpackRule where
  label : List Char
  testProp : Option (List Char)
deriving DecidableEq, Repr

/-- A webpack resolve block: extension list and alias object
(an association list keyed by alias name, first entry wins on lookup). -/
structure WebpackResolve where
  extensions : List (List Char)
  aliases : List (List Char × List Char)
deriving DecidableEq, Repr

/-- The slice of a webpack configuration that webpackFinal touches. In the
incoming storybook config, `module` and its `rules` are optional
(`config.module?.rules ?? []`). -/
structure WebpackConfigModel where
  resolve : WebpackResolve
  rules : Option (List WebpackRule)
deriving DecidableEq, Repr

def mdxMarker : List Char := ".mdx".toList

/-- JavaScript String.prototype.includes: does the needle occur as a
contiguous substring of the haystack? -/
def includesSub (needle : List Char) : List Char → Bool
  | [] => needle.isEmpty
  | c :: rest => needle.isPrefixOf (c :: rest) || includesSub needle rest

/-- The filter predicate of webpackFinal:
`'test' in rule && rule.test.toString().includes('.mdx')`. -/
def isMdxRule (r : WebpackRule) : Bool :=
  match r.testProp with
  | none => false
  | some s => includesSub mdxMarker s

/-- JavaScript object spread \x7b ...base, ...override \x7d for association
lists: on lookup the override's entries win, then the base's. -/
def spreadMerge (base override : List (List Char × List Char)) :
    List (List Char × List Char) :=
  override ++ base

/-- webpackFinal from src/unnamed/part_000 (lines 28-47): extensions are the
incoming config's followed by the main (project-wide) config's; aliases are
spread-merged with the main config's entries overriding; module rules are
all of the main config's rules followed by the incoming config's rules
filtered down to those whose `test` property mentions `.mdx`. -/
def webpackFinal (config mainConfig : WebpackConfigModel) : WebpackConfigModel :=
  { resolve :=
      { extensions := config.resolve.extensions ++ mainConfig.resolve.extensions,
        aliases := spreadMerge config.resolve.aliases mainConfig.resolve.aliases },
    rules := some ((mainConfig.rules.getD []) ++ ((config.rules.getD []).filter isMdxRule)) }

theorem verificationPrefix_no_screenshot (page : PageModel) (p : StoryParameters)
    (t : ScreenshotTarget) (b : Bool) :
    SnapEvent.screenshot t b ∉ (verificationPrefix page p).1 := by
  unfold verificationPrefix
  cases h1 : page.pageReadyOk <;>
  cases h2 : resolvedWaitForLoaders p <;>
  cases h3 : loadersDetachedWithin page loaderWaitTimeoutMs <;>
  cases h4 : resolvedWaitForSelector p <;>
  cases h5 : page.customSelectorOk <;>
  cases h6 : page.imagesCompleteOk <;>
  simp_all

theorem verificationPrefix_marker_once (page : PageModel) (p : StoryParameters)
    (h : (verificationPrefix page p).2 = none) :
    (verificationPrefix page p).1.count (SnapEvent.addBodyClass markerClass) = 1 ∧
      SnapEvent.addBodyClass markerClass ∈ (verificationPrefix page p).1 := by
  unfold verificationPrefix at h ⊢
  cases h1 : page.pageReadyOk <;>
  cases h2 : resolvedWaitForLoaders p <;>
  cases h3 : loadersDetachedWithin page loaderWaitTimeoutMs <;>
  cases h4 : resolvedWaitForSelector p <;>
  cases h5 : page.customSelectorOk <;>
  cases h6 : page.imagesCompleteOk <;>
  simp_all [List.count_cons]

theorem verificationPrefix_loader_timeout (page : PageModel) (p : StoryParameters)
    (hw : resolvedWaitForLoaders p = true)
    (hl : loadersDetachedWithin page loaderWaitTimeoutMs = false) :
    ∃ w, (verificationPrefix page p).2 = some (VerifyError.timeout w) := by
  unfold verificationPrefix
  cases h1 : page.pageReadyOk <;> simp_all

theorem runCheck_no_addBodyClass (mode : CaptureMode) (compareOk : List Char → Bool)
    (dom : PageDom) (storyId : List Char) (browser : SupportedBrowserName)
    (theme : SnapshotTheme) (sel? : Option (List Char)) (c : List Char) :
    SnapEvent.addBodyClass c ∉
      (runCheck mode compareOk dom storyId browser theme sel?).events := by
  unfold runCheck
  cases mode <;> try simp
  cases componentEvaluate theme dom <;> simp

theorem runCheck_success_events (mode : CaptureMode) (compareOk : List Char → Bool)
    (dom : PageDom) (storyId : List Char) (browser : SupportedBrowserName)
    (theme : SnapshotTheme) (sel? : Option (List Char))
    (h : (runCheck mode compareOk dom storyId browser theme sel?).err = none) :
    (∃ t b, SnapEvent.screenshot t b ∈
        (runCheck mode compareOk dom storyId browser theme sel?).events) ∧
    (∃ i, SnapEvent.compareSnapshot i ∈
        (runCheck mode compareOk dom storyId browser theme sel?).events) := by
  unfold runCheck at h ⊢
  cases mode <;> try simp
  cases hce : componentEvaluate theme dom <;> simp_all

/-- Claim C5: the capture-mode dispatch is total and mutually exclusive:
full-page mode exactly when layout is 'fullscreen' and navigation is not
excluded; scene mode exactly when layout is 'fullscreen' and navigation is
excluded (excludeNavigationFromSnapshot defaulting to false); component
mode exactly when the layout is anything else, including absent. -/
theorem selectCaptureMode_cases (p : StoryParameters) :
    (selectCaptureMode p = CaptureMode.fullPage ↔
      p.layout = some Layout.fullscreen ∧ resolvedExcludeNavigation p = false) ∧
    (selectCaptureMode p = CaptureMode.scene ↔
      p.layout = some Layout.fullscreen ∧ resolvedExcludeNavigation p = true) ∧
    (selectCaptureMode p = CaptureMode.component ↔ p.layout ≠ some Layout.fullscreen) := by
  unfold selectCaptureMode
  by_cases hl : p.layout = some Layout.fullscreen <;>
    cases he : resolvedExcludeNavigation p <;>
    simp_all

/-- Claim C6: whenever waitForLoadersToDisappear resolves to true (its
default when the option is absent) and some loader-indicator element is
still attached after 1000 ms, the verification call ends in a Timeout
error and its trace contains no screenshot at all. -/
theorem loader_timeout_fails_before_screenshot
    (page : PageModel) (p : StoryParameters) (storyId : List Char)
    (browser : SupportedBrowserName)
    (hw : resolvedWaitForLoaders p = true)
    (hl : loadersDetachedWithin page loaderWaitTimeoutMs = false) :
    (∃ w, (runVerification page p storyId browser).2 = some (VerifyError.timeout w)) ∧
    ∀ t b, SnapEvent.screenshot t b ∉ (runVerification page p storyId browser).1 := by
  obtain ⟨w, hpre⟩ := verificationPrefix_loader_timeout page p hw hl
  simp only [runVerification, hpre]
  exact ⟨⟨w, rfl⟩, fun t b => verificationPrefix_no_screenshot page p t b⟩

/-- Claim C7: in component mode, when no element carries the id
`storybook-root`, the per-theme check fails with the explicitly raised
root-element-not-found error (`new Error('Could not find root element')`)
and takes no screenshot in that theme pass. -/
theorem component_check_missing_root
    (compareOk : List Char → Bool) (dom : PageDom) (storyId : List Char)
    (browser : SupportedBrowserName) (theme : SnapshotTheme)
    (sel? : Option (List Char))
    (h : getElementById dom rootElementId = none) :
    (runCheck CaptureMode.component compareOk dom storyId browser theme sel?).err
        = some VerifyError.rootElementNotFound ∧
    ∀ t b, SnapEvent.screenshot t b ∉
      (runCheck CaptureMode.component compareOk dom storyId browser theme sel?).events := by
  unfold runCheck componentEvaluate
  rw [h]
  simp

/-- Claim C8: a verification call that runs to completion adds the
animation-disabling marker class exactly once, during the readiness prefix
and hence before either theme pass; its trace is exactly the prefix, then
the light theme attribute assignment followed by the light check's full
event sequence, then the dark theme attribute assignment followed by the
dark check's full event sequence (run on the DOM the light pass left
behind); and each check's sequence contains its capture and comparison. -/
theorem verification_theme_ordering
    (page : PageModel) (p : StoryParameters) (storyId : List Char)
    (browser : SupportedBrowserName)
    (h : (runVerification page p storyId browser).2 = none) :
    (runVerification page p storyId browser).1
      = (verificationPrefix page p).1
        ++ SnapEvent.addBodyClass posthog3000Class
        :: SnapEvent.setBodyThemeAttribute SnapshotTheme.light
        :: ((runCheck (selectCaptureMode p) page.compareOk page.dom storyId browser
              SnapshotTheme.light (resolvedTargetSelector p)).events
            ++ SnapEvent.setBodyThemeAttribute SnapshotTheme.dark
            :: (runCheck (selectCaptureMode p) page.compareOk
                  (runCheck (selectCaptureMode p) page.compareOk page.dom storyId browser
                    SnapshotTheme.light (resolvedTargetSelector p)).dom
                  storyId browser SnapshotTheme.dark (resolvedTargetSelector p)).events) ∧
    (runVerification page p storyId browser).1.count (SnapEvent.addBodyClass markerClass) = 1 ∧
    SnapEvent.addBodyClass markerClass ∈ (verificationPrefix page p).1 ∧
    (∃ t b, SnapEvent.screenshot t b ∈
      (runCheck (selectCaptureMode p) page.compareOk page.dom storyId browser
        SnapshotTheme.light (resolvedTargetSelector p)).events) ∧
    (∃ i, SnapEvent.compareSnapshot i ∈
      (runCheck (selectCaptureMode p) page.compareOk page.dom storyId browser
        SnapshotTheme.light (resolvedTargetSelector p)).events) ∧
    (∃ t b, SnapEvent.screenshot t b ∈
      (runCheck (selectCaptureMode p) page.compareOk
        (runCheck (selectCaptureMode p) page.compareOk page.dom storyId browser
          SnapshotTheme.light (resolvedTargetSelector p)).dom
        storyId browser SnapshotTheme.dark (resolvedTargetSelector p)).events) ∧
    (∃ i, SnapEvent.compareSnapshot i ∈
      (runCheck (selectCaptureMode p) page.compareOk
        (runCheck (selectCaptureMode p) page.compareOk page.dom storyId browser
          SnapshotTheme.light (resolvedTargetSelector p)).dom
        storyId browser SnapshotTheme.dark (resolvedTargetSelector p)).events) := by
  rcases hpre : (verificationPrefix page p).2 with _ | e
  · rcases hlight : (runCheck (selectCaptureMode p) page.compareOk page.dom storyId browser
        SnapshotTheme.light (resolvedTargetSelector p)).err with _ | e
    · have hmark := verificationPrefix_marker_once page p hpre
      have hle := runCheck_success_events (selectCaptureMode p) page.compareOk page.dom
        storyId browser SnapshotTheme.light (resolvedTargetSelector p) hlight
      simp only [runVerification, hpre, hlight] at h ⊢
      have hde := runCheck_success_events (selectCaptureMode p) page.compareOk
        (runCheck (selectCaptureMode p) page.compareOk page.dom storyId browser
          SnapshotTheme.light (resolvedTargetSelector p)).dom
        storyId browser SnapshotTheme.dark (resolvedTargetSelector p) h
      have hz1 := List.count_eq_zero.mpr (runCheck_no_addBodyClass (selectCaptureMode p)
        page.compareOk page.dom storyId browser SnapshotTheme.light
        (resolvedTargetSelector p) markerClass)
      have hz2 := List.count_eq_zero.mpr (runCheck_no_addBodyClass (selectCaptureMode p)
        page.compareOk
        (runCheck (selectCaptureMode p) page.compareOk page.dom storyId browser
          SnapshotTheme.light (resolvedTargetSelector p)).dom
        storyId browser SnapshotTheme.dark (resolvedTargetSelector p) markerClass)
      refine ⟨by simp, ?_, hmark.2, hle.1, hle.2, hde.1, hde.2⟩
      simp only [List.count_append, hz1, hz2, hmark.1]
      decide
    · simp only [runVerification, hpre, hlight] at h
      exact absurd h (by simp)
  · simp only [runVerification, hpre] at h
    exact absurd h (by simp)

theorem mem_updateFirstWhere_of_pred_false (elems : List DomElement)
    (p : DomElement → Bool) (f : DomElement → DomElement) (e : DomElement)
    (he : e ∈ elems) (hpe : p e = false) :
    e ∈ updateFirstWhere elems p f := by
  induction elems with
  | nil => cases he
  | cons x rest ih =>
    rcases List.mem_cons.mp he with hx | hr
    · subst hx
      simp [updateFirstWhere, hpe]
    · by_cases hpx : p x = true
      · simp [updateFirstWhere, hpx, hr]
      · simp only [updateFirstWhere, Bool.not_eq_true] at hpx ⊢
        rw [hpx]
        simp [ih hr]

theorem find?_updateFirstWhere (elems : List DomElement)
    (p : DomElement → Bool) (f : DomElement → DomElement)
    (hf : ∀ e, p (f e) = p e) :
    (updateFirstWhere elems p f).find? p = (elems.find? p).map f := by
  induction elems with
  | nil => simp [updateFirstWhere]
  | cons x rest ih =>
    by_cases hpx : p x = true
    · simp [updateFirstWhere, hpx, List.find?_cons_of_pos, hf]
    · simp only [Bool.not_eq_true] at hpx
      simp [updateFirstWhere, hpx, List.find?_cons_of_neg, ih]

/-- Claim C10: in component mode with an overriding snapshotTargetSelector,
the `#storybook-root` element must still exist (its absence fails the
check), the shrink-wrap styling and overlay expansion are applied to the
`storybook-root` element (every element with a different id is untouched,
and the DOM transformation is identical under any override, including the
default selector), while the screenshot targets the overridden selector. -/
theorem component_styling_targets_root
    (dom : PageDom) (theme : SnapshotTheme) (compareOk : List Char → Bool)
    (storyId : List Char) (browser : SupportedBrowserName) (sel : List Char) :
    ((getElementById dom rootElementId) = none →
      (runCheck CaptureMode.component compareOk dom storyId browser theme (some sel)).err
        = some VerifyError.rootElementNotFound) ∧
    (∀ rootEl, getElementById dom rootElementId = some rootEl →
      (∃ r', getElementById
          (runCheck CaptureMode.component compareOk dom storyId browser theme (some sel)).dom
          rootElementId = some r' ∧ r'.styleDisplay = some inlineBlockValue) ∧
      (∀ e ∈ dom.elements, e.elemId ≠ some rootElementId →
        e ∈ (runCheck CaptureMode.component compareOk dom storyId browser theme
              (some sel)).dom.elements) ∧
      (runCheck CaptureMode.component compareOk dom storyId browser theme (some sel)).dom
        = (runCheck CaptureMode.component compareOk dom storyId browser theme
            (some defaultTargetSelector)).dom ∧
      SnapEvent.screenshot (ScreenshotTarget.locator sel) true
        ∈ (runCheck CaptureMode.component compareOk dom storyId browser theme
            (some sel)).events) := by
  constructor
  · intro h
    unfold runCheck componentEvaluate
    rw [h]
  · intro rootEl hroot
    have hrun : ∀ s : List Char,
        (runCheck CaptureMode.component compareOk dom storyId browser theme (some s)).dom
          = { dom with
              elements := updateFirstWhere dom.elements
                (fun e => e.elemId == some rootElementId)
                (applyRootStyling (expandRoot (rootStartState rootEl) (popoverRects dom))),
              bodyBackground := some (if theme = SnapshotTheme.legacy then transparentValue
                else themedBackgroundValue) } := by
      intro s
      unfold runCheck componentEvaluate
      rw [hroot]
    refine ⟨?_, ?_, by rw [hrun sel, hrun defaultTargetSelector], ?_⟩
    · rw [hrun sel]
      unfold getElementById at hroot ⊢
      simp only
      rw [find?_updateFirstWhere dom.elements (fun e => e.elemId == some rootElementId)
        (applyRootStyling (expandRoot (rootStartState rootEl) (popoverRects dom)))
        (fun e => rfl), hroot]
      exact ⟨_, rfl, rfl⟩
    · intro e he hne
      rw [hrun sel]
      simp only
      apply mem_updateFirstWhere_of_pred_false _ _ _ _ he
      simp [hne]
    · unfold runCheck componentEvaluate
      rw [hroot]
      simp

/-- A page whose navigation container is, as in the real application, an
element carrying the class `Navigation3000` (tag name `div`), with its
default overflow-hidden styling (no inline style attribute set). -/
def navElement : DomElement :=
  { elemId := none, tagName := "div".toList, classes := ["Navigation3000".toList],
    styleDisplay := none, styleAttrRaw := none, rect := { left := 0, top := 0, right := 100, bottom := 100 } }

def navDom : PageDom :=
  { bodyClasses := [], bodyThemeAttr := none, bodyBackground := none, elements := [navElement] }

/-- Claim C4 evaluated at the failing input: the scene check's selector
string `Navigation3000` lacks the leading dot, so it parses as a type
selector; it does not match the navigation container (which carries
`Navigation3000` as a class, as the code's own comment says), the evaluate
leaves the whole DOM unchanged, and no overflow style is forced. The
claim's second half does hold: the capture targets the `main` locator, not
the full viewport. -/
theorem scene_navigation_fix_misses_class_element :
    parseSimpleSelector navSelectorString = SimpleSelector.tagSel navSelectorString ∧
    matchesSelector (parseSimpleSelector navSelectorString) navElement = false ∧
    matchesSelector (SimpleSelector.classSel navSelectorString) navElement = true ∧
    sceneNavigationEvaluate navDom = navDom ∧
    (runCheck CaptureMode.scene (fun _ => true) navDom [] SupportedBrowserName.chromium
        SnapshotTheme.light none).dom = navDom ∧
    SnapEvent.screenshot (ScreenshotTarget.locator mainSelector) false
      ∈ (runCheck CaptureMode.scene (fun _ => true) navDom [] SupportedBrowserName.chromium
          SnapshotTheme.light none).events ∧
    SnapEvent.screenshot ScreenshotTarget.fullPage false
      ∉ (runCheck CaptureMode.scene (fun _ => true) navDom [] SupportedBrowserName.chromium
          SnapshotTheme.light none).events := by
  decide

/-- Claim C3 (comparator modelled from the spec, configuration from the
code): under the structural-similarity method and the percent threshold
type configured in the source, a comparison fails exactly when the
dissimilarity score reaches the 1% threshold; in particular a
dissimilarity of exactly 1% fails. -/
theorem comparison_fails_iff_threshold (d : ℚ) :
    (comparisonFails d = true ↔ failureThreshold ≤ d) ∧
    comparisonFails failureThreshold = true ∧
    failureThreshold = 1 / 100 ∧
    failureThresholdType = FailureThresholdType.percent ∧
    comparisonMethod = ComparisonMethod.ssim := by
  refine ⟨?_, ?_, rfl, rfl, rfl⟩
  · simp [comparisonFails]
  · simp [comparisonFails]

/-- Association-list lookup for a JavaScript object: the first entry for the
key wins. -/
def lookupAlias (l : List (List Char × List Char)) (k : List Char) : Option (List Char) :=
  (l.find? (fun kv => kv.1 == k)).map (fun kv => kv.2)

/-- Claim C9: the merged bundler configuration's module rules are all of the
project-wide base (main) configuration's rules followed by exactly those
incoming rules that have a `test` property whose string form contains
`.mdx`; the resolve extensions concatenate the incoming config's with the
main config's, and alias lookup falls back from the main config's entries
to the incoming config's. -/
theorem webpackFinal_merge (config mainConfig : WebpackConfigModel) :
    (webpackFinal config mainConfig).rules
      = some ((mainConfig.rules.getD [])
          ++ (config.rules.getD []).filter
               (fun r => r.testProp.isSome && includesSub mdxMarker (r.testProp.getD []))) ∧
    (webpackFinal config mainConfig).resolve.extensions
      = config.resolve.extensions ++ mainConfig.resolve.extensions ∧
    ∀ k, lookupAlias (webpackFinal config mainConfig).resolve.aliases k
      = ((lookupAlias mainConfig.resolve.aliases k).or
          (lookupAlias config.resolve.aliases k)) := by
  refine ⟨?_, rfl, ?_⟩
  · unfold webpackFinal
    simp only [Option.some.injEq]
    rw [List.filter_congr]
    intro r _
    cases hr : r.testProp <;> simp [isMdxRule, hr]
  · intro k
    unfold webpackFinal spreadMerge lookupAlias
    simp only [List.find?_append]
    cases List.find? (fun kv => kv.1 == k) mainConfig.resolve.aliases <;> simp

/-- A storybook root element at its natural box, with no overlays. -/
def sampleRoot : DomElement :=
  { elemId := some rootElementId, tagName := "div".toList, classes := [],
    styleDisplay := none, styleAttrRaw := none,
    rect := { left := 0, top := 0, right := 100, bottom := 100 } }

def sampleDom : PageDom :=
  { bodyClasses := [], bodyThemeAttr := none, bodyBackground := none, elements := [sampleRoot] }

def emptyDom : PageDom :=
  { bodyClasses := [], bodyThemeAttr := none, bodyBackground := none, elements := [] }

/-- A page on which every wait succeeds and every comparison passes. -/
def samplePage : PageModel :=
  { pageReadyOk := true, loaderDetachTime := some 0, customSelectorOk := true,
    imagesCompleteOk := true, dom := sampleDom, compareOk := fun _ => true }

/-- A page whose loader indicators never detach. -/
def stuckPage : PageModel :=
  { pageReadyOk := true, loaderDetachTime := none, customSelectorOk := true,
    imagesCompleteOk := true, dom := sampleDom, compareOk := fun _ => true }

/-- Witness for the C6 theorem: a story with default options on a page whose
loaders never detach. -/
theorem loader_timeout_fails_before_screenshot_witness :
    resolvedWaitForLoaders {} = true ∧
    loadersDetachedWithin stuckPage loaderWaitTimeoutMs = false ∧
    ((∃ w, (runVerification stuckPage {} [] SupportedBrowserName.chromium).2
        = some (VerifyError.timeout w)) ∧
      ∀ t b, SnapEvent.screenshot t b ∉
        (runVerification stuckPage {} [] SupportedBrowserName.chromium).1) :=
  ⟨rfl, rfl,
    loader_timeout_fails_before_screenshot stuckPage {} [] SupportedBrowserName.chromium rfl rfl⟩

/-- Witness for the C7 theorem: a DOM with no storybook-root element. -/
theorem component_check_missing_root_witness :
    getElementById emptyDom rootElementId = none ∧
    (runCheck CaptureMode.component (fun _ => true) emptyDom []
        SupportedBrowserName.chromium SnapshotTheme.light none).err
      = some VerifyError.rootElementNotFound :=
  ⟨rfl,
    (component_check_missing_root (fun _ => true) emptyDom [] SupportedBrowserName.chromium
      SnapshotTheme.light none rfl).1⟩

/-- Witness for the C8 theorem: a fully succeeding verification run adds the
marker class exactly once. -/
theorem verification_theme_ordering_witness :
    (runVerification samplePage {} [] SupportedBrowserName.chromium).2 = none ∧
    (runVerification samplePage {} [] SupportedBrowserName.chromium).1.count
        (SnapEvent.addBodyClass markerClass) = 1 :=
  ⟨by decide,
    (verification_theme_ordering samplePage {} [] SupportedBrowserName.chromium (by decide)).2.1⟩
